import Mathlib

/-!
Verification of `Global_Scripts/audit_python_project.py`.

The script is an orchestration wrapper: it parses one directory argument,
then runs a dependency audit (pip-audit) and a code-quality audit (flake8),
printing the results.  We embed it shallowly: the operating system is an
oracle (`World`) giving, for every shell command line, the process result,
and, for every path, whether it exists and whether it is a directory.
Each embedded function returns the list of lines it prints and the list of
shell command lines it invokes, in order; `main` additionally returns the
process exit status.
-/

namespace AuditPythonProject

/-- The captured result of one external process: its exit status and the
captured standard output and standard error text
(`subprocess.run(..., capture_output=True, text=True)`). -/
structure CmdResult where
  exitCode : Nat
  stdout : String
  stderr : String
deriving DecidableEq

/-- The environment the script runs in: an oracle for executing a shell
command line (`subprocess.run(command, shell=True)`), for path existence
(`os.path.exists`), for the directory test (`os.path.isdir`), and the
value of `sys.executable`. -/
structure World where
  exec : String → CmdResult
  pathExists : String → Bool
  isDir : String → Bool
  pythonExe : String

/-- The Python exception relevant to `run_command`:
`subprocess.CalledProcessError`, carrying the completed process
(`check=True` raises it exactly when the exit status is nonzero). -/
inductive PyExc where
  | calledProcessError (e : CmdResult)
deriving DecidableEq

/-- `subprocess.run(command, capture_output=True, text=True, check=True,
shell=True)`: returns the completed process on exit status 0 and raises
`CalledProcessError` otherwise. -/
def subprocess_run (w : World) (command : String) : Except PyExc CmdResult :=
  let r := w.exec command
  if r.exitCode = 0 then Except.ok r else Except.error (PyExc.calledProcessError r)

/-- Python `' '.join(command)` where `command` is a `str`: `str` is iterated
character by character, so the characters are joined with single spaces. -/
def joinWithSpaces (s : String) : String :=
  String.intercalate " " (s.toList.map Char.toString)

/-- `run_command(command)`: runs a shell command; returns its captured
standard output on success, and on `CalledProcessError` returns the
formatted error string (the `try`/`except` is the total `match`). -/
def run_command (w : World) (command : String) : String :=
  match subprocess_run w command with
  | Except.ok result => result.stdout
  | Except.error (PyExc.calledProcessError e) =>
      "Error running command '" ++ joinWithSpaces command ++ "': " ++ e.stderr

/-- `os.path.join(a, b)` for a simple relative component (POSIX separator). -/
def os_path_join (a b : String) : String := a ++ "/" ++ b

/-- The command line `f"{sys.executable} -m pip install pip-audit"`. -/
def installPipAuditCmd (w : World) : String :=
  w.pythonExe ++ " -m pip install pip-audit"

/-- The command line `f"cd {project_path} && {sys.executable} -m pip-audit"`. -/
def pipAuditProjectCmd (w : World) (project_path : String) : String :=
  "cd " ++ project_path ++ " && " ++ w.pythonExe ++ " -m pip-audit"

/-- The command line `f"{sys.executable} -m pip-audit -r {requirements_path}"`. -/
def pipAuditRequirementsCmd (w : World) (requirements_path : String) : String :=
  w.pythonExe ++ " -m pip-audit -r " ++ requirements_path

/-- The command line `f"{sys.executable} -m pip install flake8"`. -/
def installFlake8Cmd (w : World) : String :=
  w.pythonExe ++ " -m pip install flake8"

/-- The command line `f"flake8 {src_path}"`. -/
def flake8Cmd (src_path : String) : String := "flake8 " ++ src_path

/-- Python `str.strip()` with no argument: removes leading and trailing
whitespace characters (modelled over `Char.isWhitespace`). -/
def strip (s : String) : String :=
  ⟨((s.data.dropWhile Char.isWhitespace).reverse.dropWhile Char.isWhitespace).reverse⟩

/-- What one of the audit functions does to the outside world: the lines it
prints to standard output and the shell command lines it invokes, in order. -/
structure Effects where
  printed : List String
  invoked : List String
deriving DecidableEq

/-- `check_dependencies(project_path)`: prints the banner, installs
pip-audit (result discarded), then selects the audit mode by checking for
`pyproject.toml` and then `requirements.txt` with `os.path.exists`. -/
def check_dependencies (w : World) (project_path : String) : Effects :=
  let _installed := run_command w (installPipAuditCmd w)
  let pyproject_path := os_path_join project_path "pyproject.toml"
  let requirements_path := os_path_join project_path "requirements.txt"
  let tail : Effects :=
    if w.pathExists pyproject_path then
      { printed := ["Auditing dependencies from " ++ pyproject_path ++ "...",
                    run_command w (pipAuditProjectCmd w project_path)],
        invoked := [pipAuditProjectCmd w project_path] }
    else if w.pathExists requirements_path then
      { printed := ["Auditing " ++ requirements_path ++ "...",
                    run_command w (pipAuditRequirementsCmd w requirements_path)],
        invoked := [pipAuditRequirementsCmd w requirements_path] }
    else
      { printed := ["No pyproject.toml or requirements.txt found."],
        invoked := [] }
  { printed := "\n--- Checking for vulnerable dependencies ---" :: tail.printed,
    invoked := installPipAuditCmd w :: tail.invoked }

/-- `check_code_quality(project_path)`: prints the banner, installs flake8
(result discarded), then, if `os.path.exists` holds of `src` under the
project path, runs flake8 on it and prints its output when the output is
truthy after `strip()` (`if quality_result.strip():`), else a "no issues"
line; without `src` it prints a skip message. -/
def check_code_quality (w : World) (project_path : String) : Effects :=
  let _installed := run_command w (installFlake8Cmd w)
  let src_path := os_path_join project_path "src"
  if w.pathExists src_path then
    let quality_result := run_command w (flake8Cmd src_path)
    if strip quality_result ≠ "" then
      { printed := ["\n--- Checking code quality with flake8 ---", quality_result],
        invoked := [installFlake8Cmd w, flake8Cmd src_path] }
    else
      { printed := ["\n--- Checking code quality with flake8 ---",
                    "flake8 found no issues."],
        invoked := [installFlake8Cmd w, flake8Cmd src_path] }
  else
    { printed := ["\n--- Checking code quality with flake8 ---",
                  "No src/ directory found to analyze."],
      invoked := [installFlake8Cmd w] }

/-- The observable outcome of one run of the program: printed lines,
invoked shell commands, and the process exit status. -/
structure RunResult where
  printed : List String
  invoked : List String
  exitCode : Nat
deriving DecidableEq

/-- `main()` after a successful argument parse: `os.path.isdir` failing
prints the error and exits with status 1; otherwise both audits run in
order on the same path and the process ends with status 0. -/
def main_run (w : World) (project_path : String) : RunResult :=
  if w.isDir project_path = false then
    { printed := ["Error: Project path '" ++ project_path ++ "' not found."],
      invoked := [],
      exitCode := 1 }
  else
    let deps := check_dependencies w project_path
    let quality := check_code_quality w project_path
    { printed := ("--- Starting Audit for: " ++ project_path ++ " ---")
        :: (deps.printed ++ quality.printed ++ ["\n--- Audit Complete ---"]),
      invoked := deps.invoked ++ quality.invoked,
      exitCode := 0 }

/-! ## Branch characterizations and congruence helpers -/

/-- On a zero exit status, `run_command` returns the captured stdout. -/
theorem run_command_success (w : World) (c : String) (h : (w.exec c).exitCode = 0) :
    run_command w c = (w.exec c).stdout := by
  simp [run_command, subprocess_run, h]

/-- On a nonzero exit status, `run_command` returns the formatted error
string built from the space-joined command and the captured stderr. -/
theorem run_command_failure (w : World) (c : String) (h : (w.exec c).exitCode ≠ 0) :
    run_command w c =
      "Error running command '" ++ joinWithSpaces c ++ "': " ++ (w.exec c).stderr := by
  simp [run_command, subprocess_run, h]

/-- `run_command` depends only on the execution oracle's value at its own
command line. -/
theorem run_command_congr {w w' : World} {c : String} (h : w.exec c = w'.exec c) :
    run_command w c = run_command w' c := by
  simp [run_command, subprocess_run, h]

/-- `check_dependencies` in the `pyproject.toml` branch. -/
theorem check_dependencies_pyproject (w : World) (p : String)
    (h : w.pathExists (os_path_join p "pyproject.toml") = true) :
    check_dependencies w p =
      { printed := ["\n--- Checking for vulnerable dependencies ---",
                    "Auditing dependencies from " ++ os_path_join p "pyproject.toml" ++ "...",
                    run_command w (pipAuditProjectCmd w p)],
        invoked := [installPipAuditCmd w, pipAuditProjectCmd w p] } := by
  simp [check_dependencies, h]

/-- `check_dependencies` in the `requirements.txt` branch. -/
theorem check_dependencies_requirements (w : World) (p : String)
    (h1 : w.pathExists (os_path_join p "pyproject.toml") = false)
    (h2 : w.pathExists (os_path_join p "requirements.txt") = true) :
    check_dependencies w p =
      { printed := ["\n--- Checking for vulnerable dependencies ---",
                    "Auditing " ++ os_path_join p "requirements.txt" ++ "...",
                    run_command w (pipAuditRequirementsCmd w (os_path_join p "requirements.txt"))],
        invoked := [installPipAuditCmd w,
                    pipAuditRequirementsCmd w (os_path_join p "requirements.txt")] } := by
  simp [check_dependencies, h1, h2]

/-- `check_dependencies` when neither manifest exists. -/
theorem check_dependencies_none (w : World) (p : String)
    (h1 : w.pathExists (os_path_join p "pyproject.toml") = false)
    (h2 : w.pathExists (os_path_join p "requirements.txt") = false) :
    check_dependencies w p =
      { printed := ["\n--- Checking for vulnerable dependencies ---",
                    "No pyproject.toml or requirements.txt found."],
        invoked := [installPipAuditCmd w] } := by
  simp [check_dependencies, h1, h2]

/-- `check_code_quality` when the `src` path exists, as a single record with
the `strip`-guarded choice of printed line. -/
theorem check_code_quality_src (w : World) (p : String)
    (h : w.pathExists (os_path_join p "src") = true) :
    check_code_quality w p =
      { printed := ["\n--- Checking code quality with flake8 ---",
                    if strip (run_command w (flake8Cmd (os_path_join p "src"))) ≠ "" then
                      run_command w (flake8Cmd (os_path_join p "src"))
                    else "flake8 found no issues."],
        invoked := [installFlake8Cmd w, flake8Cmd (os_path_join p "src")] } := by
  by_cases hq : strip (run_command w (flake8Cmd (os_path_join p "src"))) = "" <;>
    simp [check_code_quality, h, hq]

/-- `check_code_quality` when the `src` path does not exist. -/
theorem check_code_quality_nosrc (w : World) (p : String)
    (h : w.pathExists (os_path_join p "src") = false) :
    check_code_quality w p =
      { printed := ["\n--- Checking code quality with flake8 ---",
                    "No src/ directory found to analyze."],
        invoked := [installFlake8Cmd w] } := by
  simp [check_code_quality, h]

/-- The dependency audit's behaviour is fixed by the existence probes, the
interpreter path, and the execution results of its own scan command in the
branch actually taken: the install command's result never enters. -/
theorem check_dependencies_congr (w w' : World) (p : String)
    (hpy : w.pythonExe = w'.pythonExe)
    (hpx : ∀ s, w.pathExists s = w'.pathExists s)
    (hproj : w.pathExists (os_path_join p "pyproject.toml") = true →
      w.exec (pipAuditProjectCmd w p) = w'.exec (pipAuditProjectCmd w p))
    (hreq : w.pathExists (os_path_join p "pyproject.toml") = false →
      w.pathExists (os_path_join p "requirements.txt") = true →
      w.exec (pipAuditRequirementsCmd w (os_path_join p "requirements.txt")) =
        w'.exec (pipAuditRequirementsCmd w (os_path_join p "requirements.txt"))) :
    check_dependencies w p = check_dependencies w' p := by
  have hip : installPipAuditCmd w = installPipAuditCmd w' := by
    simp [installPipAuditCmd, hpy]
  have hpc : pipAuditProjectCmd w p = pipAuditProjectCmd w' p := by
    simp [pipAuditProjectCmd, hpy]
  have hrc : pipAuditRequirementsCmd w (os_path_join p "requirements.txt") =
      pipAuditRequirementsCmd w' (os_path_join p "requirements.txt") := by
    simp [pipAuditRequirementsCmd, hpy]
  by_cases h1 : w.pathExists (os_path_join p "pyproject.toml") = true
  · rw [check_dependencies_pyproject w p h1,
      check_dependencies_pyproject w' p ((hpx _).symm.trans h1),
      ← hip, ← hpc, run_command_congr (hproj h1)]
  · have h1' : w.pathExists (os_path_join p "pyproject.toml") = false :=
      Bool.eq_false_iff.mpr h1
    by_cases h2 : w.pathExists (os_path_join p "requirements.txt") = true
    · rw [check_dependencies_requirements w p h1' h2,
        check_dependencies_requirements w' p ((hpx _).symm.trans h1')
          ((hpx _).symm.trans h2),
        ← hip, ← hrc, run_command_congr (hreq h1' h2)]
    · have h2' : w.pathExists (os_path_join p "requirements.txt") = false :=
        Bool.eq_false_iff.mpr h2
      rw [check_dependencies_none w p h1' h2',
        check_dependencies_none w' p ((hpx _).symm.trans h1')
          ((hpx _).symm.trans h2'), ← hip]

/-- The code-quality audit's behaviour is fixed by the existence probe of
`src`, the interpreter path, and the flake8 command's execution result when
`src` exists: the install command's result never enters. -/
theorem check_code_quality_congr (w w' : World) (p : String)
    (hpy : w.pythonExe = w'.pythonExe)
    (hpx : ∀ s, w.pathExists s = w'.pathExists s)
    (hfl : w.pathExists (os_path_join p "src") = true →
      w.exec (flake8Cmd (os_path_join p "src")) = w'.exec (flake8Cmd (os_path_join p "src"))) :
    check_code_quality w p = check_code_quality w' p := by
  have hif : installFlake8Cmd w = installFlake8Cmd w' := by
    simp [installFlake8Cmd, hpy]
  by_cases h : w.pathExists (os_path_join p "src") = true
  · rw [check_code_quality_src w p h,
      check_code_quality_src w' p ((hpx _).symm.trans h),
      ← hif, run_command_congr (hfl h)]
  · have h' : w.pathExists (os_path_join p "src") = false :=
      Bool.eq_false_iff.mpr h
    rw [check_code_quality_nosrc w p h',
      check_code_quality_nosrc w' p ((hpx _).symm.trans h'), ← hif]

/-- The accumulator form of `String.intercalate` over one-character strings
appends, for each remaining character, a space and that character. -/
theorem intercalate_go_chars (l : List Char) : ∀ acc : String,
    (String.intercalate.go acc " " (l.map Char.toString)).data =
      acc.data ++ l.flatMap (fun c => [' ', c]) := by
  induction l with
  | nil => intro acc; simp [String.intercalate.go]
  | cons c t ih =>
      intro acc
      simp only [List.map_cons, String.intercalate.go, ih, List.flatMap_cons]
      simp [String.data_append, Char.toString, String.singleton]

/-- `intersperse` of a space over a nonempty list, in flatMap form. -/
theorem intersperse_eq_flatMap (u : List Char) (a : Char) :
    (a :: u).intersperse ' ' = a :: u.flatMap (fun x => [' ', x]) := by
  induction u generalizing a with
  | nil => simp
  | cons b v ih => simp [List.intersperse, ih b, List.flatMap_cons]

/-- `' '.join(command)` over a Python `str` yields the characters of the
string with a single space interspersed between every two of them. -/
theorem joinWithSpaces_data (s : String) :
    (joinWithSpaces s).data = s.data.intersperse ' ' := by
  rw [joinWithSpaces]
  simp only [String.toList]
  cases hs : s.data with
  | nil => simp [String.intercalate]
  | cons c t =>
      simp only [List.map_cons, String.intercalate]
      rw [intercalate_go_chars, intersperse_eq_flatMap]
      simp [Char.toString, String.singleton]

/-! ## Concrete worlds used by the witnesses -/

/-- An oracle where every command succeeds with the same output. -/
def okAll : String → CmdResult := fun _ => ⟨0, "scan ok", ""⟩

/-- An oracle where every command fails. -/
def failAll : String → CmdResult := fun _ => ⟨1, "ignored", "boom"⟩

/-- A project directory holding `pyproject.toml` only. -/
def wPyproject : World :=
  { exec := okAll,
    pathExists := fun s => s == "/proj/pyproject.toml",
    isDir := fun s => s == "/proj",
    pythonExe := "python3" }

/-- A project directory holding `requirements.txt` only. -/
def wRequirements : World :=
  { exec := okAll,
    pathExists := fun s => s == "/proj/requirements.txt",
    isDir := fun s => s == "/proj",
    pythonExe := "python3" }

/-- A project directory holding neither manifest and no `src`. -/
def wNoManifest : World :=
  { exec := okAll,
    pathExists := fun _ => false,
    isDir := fun s => s == "/proj",
    pythonExe := "python3" }

/-- A world in which every external command fails. -/
def wFail : World :=
  { exec := failAll,
    pathExists := fun _ => false,
    isDir := fun s => s == "/proj",
    pythonExe := "python3" }

/-- A world whose argument path is not a directory. -/
def wNotDir : World :=
  { exec := okAll,
    pathExists := fun _ => false,
    isDir := fun _ => false,
    pythonExe := "python3" }

/-- A project with `src` whose flake8 run succeeds with whitespace-only
output. -/
def wWhitespaceOutput : World :=
  { exec := fun c => if c == flake8Cmd "/proj/src" then ⟨0, "\n", ""⟩ else ⟨0, "", ""⟩,
    pathExists := fun s => s == "/proj/src",
    isDir := fun s => s == "/proj",
    pythonExe := "python3" }

/-- A project with `src` whose flake8 run succeeds with a finding line. -/
def wIssues : World :=
  { exec := fun c => if c == flake8Cmd "/proj/src" then ⟨0, "src/x.py:1:1: F401", ""⟩
                     else ⟨0, "", ""⟩,
    pathExists := fun s => s == "/proj/src",
    isDir := fun s => s == "/proj",
    pythonExe := "python3" }

/-! ## The claims -/

/-- C1: the dependency audit selects its mode by checking, in order,
`pyproject.toml` then `requirements.txt` in the target directory: if the
former exists, the scanner runs with the target directory as working
directory and no requirements-mode command is ever invoked; else if the
latter exists, the scanner is pointed at that file; else a "not found"
message is printed and only the install command was invoked, no scan. -/
theorem C1_dependency_mode_selection (w : World) (p : String) :
    (w.pathExists (os_path_join p "pyproject.toml") = true →
      check_dependencies w p =
        { printed := ["\n--- Checking for vulnerable dependencies ---",
                      "Auditing dependencies from " ++ os_path_join p "pyproject.toml" ++ "...",
                      run_command w (pipAuditProjectCmd w p)],
          invoked := [installPipAuditCmd w, pipAuditProjectCmd w p] }) ∧
    (w.pathExists (os_path_join p "pyproject.toml") = false →
     w.pathExists (os_path_join p "requirements.txt") = true →
      check_dependencies w p =
        { printed := ["\n--- Checking for vulnerable dependencies ---",
                      "Auditing " ++ os_path_join p "requirements.txt" ++ "...",
                      run_command w (pipAuditRequirementsCmd w (os_path_join p "requirements.txt"))],
          invoked := [installPipAuditCmd w,
                      pipAuditRequirementsCmd w (os_path_join p "requirements.txt")] }) ∧
    (w.pathExists (os_path_join p "pyproject.toml") = false →
     w.pathExists (os_path_join p "requirements.txt") = false →
      check_dependencies w p =
        { printed := ["\n--- Checking for vulnerable dependencies ---",
                      "No pyproject.toml or requirements.txt found."],
          invoked := [installPipAuditCmd w] }) :=
  ⟨check_dependencies_pyproject w p,
   check_dependencies_requirements w p,
   check_dependencies_none w p⟩

/-- C1 witness: the three modes at concrete worlds. -/
theorem C1_dependency_mode_selection_witness :
    (wPyproject.pathExists (os_path_join "/proj" "pyproject.toml") = true ∧
      check_dependencies wPyproject "/proj" =
        { printed := ["\n--- Checking for vulnerable dependencies ---",
                      "Auditing dependencies from /proj/pyproject.toml...", "scan ok"],
          invoked := ["python3 -m pip install pip-audit",
                      "cd /proj && python3 -m pip-audit"] }) ∧
    (wRequirements.pathExists (os_path_join "/proj" "pyproject.toml") = false ∧
     wRequirements.pathExists (os_path_join "/proj" "requirements.txt") = true ∧
      check_dependencies wRequirements "/proj" =
        { printed := ["\n--- Checking for vulnerable dependencies ---",
                      "Auditing /proj/requirements.txt...", "scan ok"],
          invoked := ["python3 -m pip install pip-audit",
                      "python3 -m pip-audit -r /proj/requirements.txt"] }) ∧
    (wNoManifest.pathExists (os_path_join "/proj" "pyproject.toml") = false ∧
     wNoManifest.pathExists (os_path_join "/proj" "requirements.txt") = false ∧
      check_dependencies wNoManifest "/proj" =
        { printed := ["\n--- Checking for vulnerable dependencies ---",
                      "No pyproject.toml or requirements.txt found."],
          invoked := ["python3 -m pip install pip-audit"] }) :=
  ⟨⟨rfl, (C1_dependency_mode_selection wPyproject "/proj").1 rfl⟩,
   ⟨rfl, rfl, (C1_dependency_mode_selection wRequirements "/proj").2.1 rfl rfl⟩,
   ⟨rfl, rfl, (C1_dependency_mode_selection wNoManifest "/proj").2.2 rfl rfl⟩⟩

/-- C2: `run_command` returns the captured stdout on success and, on
failure, a formatted string embedding the error text; the exception is
consumed inside it (the handler is total), so the process exit status is
decided solely by the initial directory check. -/
theorem C2_run_command_never_raises (w : World) (c : String) (p : String) :
    ((w.exec c).exitCode = 0 → run_command w c = (w.exec c).stdout) ∧
    ((w.exec c).exitCode ≠ 0 →
      run_command w c =
        "Error running command '" ++ joinWithSpaces c ++ "': " ++ (w.exec c).stderr) ∧
    (main_run w p).exitCode = (if w.isDir p then 0 else 1) := by
  refine ⟨run_command_success w c, run_command_failure w c, ?_⟩
  by_cases h : w.isDir p <;> simp [main_run, h]

/-- C2 witness: a succeeding and a failing command, and the exit status of
a run in which every external command fails. -/
theorem C2_run_command_never_raises_witness :
    ((wPyproject.exec "ls").exitCode = 0 ∧ run_command wPyproject "ls" = "scan ok") ∧
    ((wFail.exec "ls").exitCode ≠ 0 ∧
      run_command wFail "ls" = "Error running command 'l s': boom") ∧
    (main_run wFail "/proj").exitCode = (if wFail.isDir "/proj" then 0 else 1) :=
  ⟨⟨rfl, (C2_run_command_never_raises wPyproject "ls" "/proj").1 rfl⟩,
   ⟨by decide, (C2_run_command_never_raises wFail "ls" "/proj").2.1 (by decide)⟩,
   (C2_run_command_never_raises wFail "ls" "/proj").2.2⟩

/-- C3: when the argument path is not a directory, the program prints an
error line containing the path, exits with status 1, and invokes nothing
(neither audit runs). -/
theorem C3_not_a_directory (w : World) (p : String) (h : w.isDir p = false) :
    (∃ pre post, (main_run w p).printed = [pre ++ p ++ post]) ∧
    (main_run w p).exitCode = 1 ∧
    (main_run w p).invoked = [] := by
  refine ⟨⟨"Error: Project path '", "' not found.", ?_⟩, ?_, ?_⟩ <;> simp [main_run, h]

/-- C3 witness at a concrete non-directory path. -/
theorem C3_not_a_directory_witness :
    wNotDir.isDir "/nope" = false ∧
    ((∃ pre post, (main_run wNotDir "/nope").printed = [pre ++ "/nope" ++ post]) ∧
     (main_run wNotDir "/nope").exitCode = 1 ∧
     (main_run wNotDir "/nope").invoked = []) :=
  ⟨rfl, C3_not_a_directory wNotDir "/nope" rfl⟩

/-- C4: when the argument path is a directory, the program exits with
status 0 for every oracle, whatever the audits report or however the
external commands fail. -/
theorem C4_directory_exits_zero (w : World) (p : String) (h : w.isDir p = true) :
    (main_run w p).exitCode = 0 := by
  simp [main_run, h]

/-- C4 witness: exit status 0 in a world where every external command
fails. -/
theorem C4_directory_exits_zero_witness :
    wFail.isDir "/proj" = true ∧ (main_run wFail "/proj").exitCode = 0 :=
  ⟨rfl, C4_directory_exits_zero wFail "/proj" rfl⟩

/-- C5 counterexample: a flake8 run that succeeds with the non-empty
output `"\n"`; the code strips it to empty, prints the "no issues" line
and never prints the output, so non-empty output is not always printed. -/
theorem C5_counterexample_whitespace_output :
    (wWhitespaceOutput.exec (flake8Cmd (os_path_join "/proj" "src"))).exitCode = 0 ∧
    (wWhitespaceOutput.exec (flake8Cmd (os_path_join "/proj" "src"))).stdout = "\n" ∧
    (wWhitespaceOutput.exec (flake8Cmd (os_path_join "/proj" "src"))).stdout ≠ "" ∧
    wWhitespaceOutput.pathExists (os_path_join "/proj" "src") = true ∧
    (check_code_quality wWhitespaceOutput "/proj").printed =
      ["\n--- Checking code quality with flake8 ---", "flake8 found no issues."] ∧
    "\n" ∉ (check_code_quality wWhitespaceOutput "/proj").printed :=
  ⟨rfl, rfl, by decide, rfl, by decide, by decide⟩

/-- C5 amended: when `src` exists and the checker run succeeds, the audit
prints the "no issues" line exactly when the output strips to the empty
string (so also for whitespace-only output), and prints the output itself
when the output contains a non-whitespace character. -/
theorem C5_quality_output_printing (w : World) (p : String)
    (hsrc : w.pathExists (os_path_join p "src") = true)
    (hok : (w.exec (flake8Cmd (os_path_join p "src"))).exitCode = 0) :
    (strip (w.exec (flake8Cmd (os_path_join p "src"))).stdout = "" →
      (check_code_quality w p).printed =
        ["\n--- Checking code quality with flake8 ---", "flake8 found no issues."]) ∧
    (strip (w.exec (flake8Cmd (os_path_join p "src"))).stdout ≠ "" →
      (check_code_quality w p).printed =
        ["\n--- Checking code quality with flake8 ---",
         (w.exec (flake8Cmd (os_path_join p "src"))).stdout]) := by
  have hrun := run_command_success w (flake8Cmd (os_path_join p "src")) hok
  refine ⟨fun h => ?_, fun h => ?_⟩ <;> simp [check_code_quality, hsrc, hrun, h]

/-- C5 witness: whitespace-only output prints the "no issues" line; a
finding line is printed verbatim. -/
theorem C5_quality_output_printing_witness :
    (wWhitespaceOutput.pathExists (os_path_join "/proj" "src") = true ∧
     (wWhitespaceOutput.exec (flake8Cmd (os_path_join "/proj" "src"))).exitCode = 0 ∧
     strip (wWhitespaceOutput.exec (flake8Cmd (os_path_join "/proj" "src"))).stdout = "" ∧
     (check_code_quality wWhitespaceOutput "/proj").printed =
       ["\n--- Checking code quality with flake8 ---", "flake8 found no issues."]) ∧
    (wIssues.pathExists (os_path_join "/proj" "src") = true ∧
     (wIssues.exec (flake8Cmd (os_path_join "/proj" "src"))).exitCode = 0 ∧
     strip (wIssues.exec (flake8Cmd (os_path_join "/proj" "src"))).stdout ≠ "" ∧
     (check_code_quality wIssues "/proj").printed =
       ["\n--- Checking code quality with flake8 ---", "src/x.py:1:1: F401"]) :=
  ⟨⟨rfl, rfl, by decide,
    (C5_quality_output_printing wWhitespaceOutput "/proj" rfl rfl).1 (by decide)⟩,
   ⟨rfl, rfl, by decide,
    (C5_quality_output_printing wIssues "/proj" rfl rfl).2 (by decide)⟩⟩

/-- C6: without a `src` entry the quality audit prints the skip message and
invokes only the install command, never the checker. -/
theorem C6_no_src_directory (w : World) (p : String)
    (h : w.pathExists (os_path_join p "src") = false) :
    (check_code_quality w p).printed =
      ["\n--- Checking code quality with flake8 ---",
       "No src/ directory found to analyze."] ∧
    (check_code_quality w p).invoked = [installFlake8Cmd w] := by
  rw [check_code_quality_nosrc w p h]
  exact ⟨rfl, rfl⟩

/-- C6 witness at a concrete world without `src`. -/
theorem C6_no_src_directory_witness :
    wNoManifest.pathExists (os_path_join "/proj" "src") = false ∧
    ((check_code_quality wNoManifest "/proj").printed =
       ["\n--- Checking code quality with flake8 ---",
        "No src/ directory found to analyze."] ∧
     (check_code_quality wNoManifest "/proj").invoked =
       ["python3 -m pip install flake8"]) :=
  ⟨rfl, C6_no_src_directory wNoManifest "/proj" rfl⟩

/-- C7: each audit ensures its tool by running the install command first;
the install result is discarded — two worlds that differ only in the
install commands' results behave identically (when the scan commands are
distinct command lines from the install commands) — and an install failure
never prevents the audit's own scan from being invoked. -/
theorem C7_install_best_effort (w w' : World) (p : String)
    (hpy : w.pythonExe = w'.pythonExe)
    (hpx : ∀ s, w.pathExists s = w'.pathExists s)
    (hex : ∀ c, c ≠ installPipAuditCmd w → c ≠ installFlake8Cmd w → w.exec c = w'.exec c)
    (hd1 : pipAuditProjectCmd w p ≠ installPipAuditCmd w)
    (hd2 : pipAuditProjectCmd w p ≠ installFlake8Cmd w)
    (hd3 : pipAuditRequirementsCmd w (os_path_join p "requirements.txt") ≠ installPipAuditCmd w)
    (hd4 : pipAuditRequirementsCmd w (os_path_join p "requirements.txt") ≠ installFlake8Cmd w)
    (hd5 : flake8Cmd (os_path_join p "src") ≠ installPipAuditCmd w)
    (hd6 : flake8Cmd (os_path_join p "src") ≠ installFlake8Cmd w) :
    check_dependencies w p = check_dependencies w' p ∧
    check_code_quality w p = check_code_quality w' p ∧
    ((w.exec (installPipAuditCmd w)).exitCode ≠ 0 →
      w.pathExists (os_path_join p "pyproject.toml") = true →
      pipAuditProjectCmd w p ∈ (check_dependencies w p).invoked) ∧
    ((w.exec (installFlake8Cmd w)).exitCode ≠ 0 →
      w.pathExists (os_path_join p "src") = true →
      flake8Cmd (os_path_join p "src") ∈ (check_code_quality w p).invoked) := by
  refine ⟨check_dependencies_congr w w' p hpy hpx (fun _ => hex _ hd1 hd2)
            (fun _ _ => hex _ hd3 hd4),
          check_code_quality_congr w w' p hpy hpx (fun _ => hex _ hd5 hd6),
          fun _ h => ?_, fun _ h => ?_⟩
  · rw [check_dependencies_pyproject w p h]; simp
  · rw [check_code_quality_src w p h]; simp

/-- A project with `pyproject.toml` and `src` where both install commands
fail and everything else succeeds. -/
def wInstallFail : World :=
  { exec := fun c =>
      if c == "python3 -m pip install pip-audit" then ⟨1, "", "install failed"⟩
      else if c == "python3 -m pip install flake8" then ⟨1, "", "install failed"⟩
      else okAll c,
    pathExists := fun s => s == "/proj/pyproject.toml" || s == "/proj/src",
    isDir := fun s => s == "/proj",
    pythonExe := "python3" }

/-- The same project with the install commands succeeding. -/
def wInstallOk : World :=
  { exec := okAll,
    pathExists := fun s => s == "/proj/pyproject.toml" || s == "/proj/src",
    isDir := fun s => s == "/proj",
    pythonExe := "python3" }

/-- C7 witness: failing installs change nothing, and both scans still run. -/
theorem C7_install_best_effort_witness :
    (wInstallFail.exec (installPipAuditCmd wInstallFail)).exitCode ≠ 0 ∧
    (wInstallFail.exec (installFlake8Cmd wInstallFail)).exitCode ≠ 0 ∧
    check_dependencies wInstallFail "/proj" = check_dependencies wInstallOk "/proj" ∧
    check_code_quality wInstallFail "/proj" = check_code_quality wInstallOk "/proj" ∧
    "cd /proj && python3 -m pip-audit" ∈ (check_dependencies wInstallFail "/proj").invoked ∧
    "flake8 /proj/src" ∈ (check_code_quality wInstallFail "/proj").invoked := by
  have hex : ∀ c, c ≠ installPipAuditCmd wInstallFail → c ≠ installFlake8Cmd wInstallFail →
      wInstallFail.exec c = wInstallOk.exec c := by
    intro c h1 h2
    have hip : installPipAuditCmd wInstallFail = "python3 -m pip install pip-audit" := rfl
    have hif : installFlake8Cmd wInstallFail = "python3 -m pip install flake8" := rfl
    rw [hip] at h1; rw [hif] at h2
    have e1 : (c == "python3 -m pip install pip-audit") = false := beq_eq_false_iff_ne.mpr h1
    have e2 : (c == "python3 -m pip install flake8") = false := beq_eq_false_iff_ne.mpr h2
    show (if c == "python3 -m pip install pip-audit" then (⟨1, "", "install failed"⟩ : CmdResult)
          else if c == "python3 -m pip install flake8" then ⟨1, "", "install failed"⟩
          else okAll c) = okAll c
    rw [e1, e2]; rfl
  have happ := C7_install_best_effort wInstallFail wInstallOk "/proj" rfl (fun _ => rfl) hex
    (by decide) (by decide) (by decide) (by decide) (by decide) (by decide)
  exact ⟨by decide, by decide, happ.1, happ.2.1,
    happ.2.2.1 (by decide) (by decide), happ.2.2.2 (by decide) (by decide)⟩

/-- C8: for a directory input, `main` is exactly the sequential composition
of the dependency audit followed by the code-quality audit on the same
path, and each audit's behaviour is already fixed by the probes, the
interpreter path, and the results of its own invoked commands — so neither
depends on the other's outcome and no data flows between them. -/
theorem C8_sequential_independent (w : World) (p : String) (h : w.isDir p = true) :
    main_run w p =
      { printed := ("--- Starting Audit for: " ++ p ++ " ---")
          :: ((check_dependencies w p).printed ++ (check_code_quality w p).printed
              ++ ["\n--- Audit Complete ---"]),
        invoked := (check_dependencies w p).invoked ++ (check_code_quality w p).invoked,
        exitCode := 0 } ∧
    (∀ w₂ : World, w₂.pythonExe = w.pythonExe → (∀ s, w₂.pathExists s = w.pathExists s) →
      (∀ c, c ∈ (check_code_quality w p).invoked → w₂.exec c = w.exec c) →
      check_code_quality w₂ p = check_code_quality w p) ∧
    (∀ w₂ : World, w₂.pythonExe = w.pythonExe → (∀ s, w₂.pathExists s = w.pathExists s) →
      (∀ c, c ∈ (check_dependencies w p).invoked → w₂.exec c = w.exec c) →
      check_dependencies w₂ p = check_dependencies w p) := by
  refine ⟨by simp [main_run, h], fun w₂ hpy hpx hc => ?_, fun w₂ hpy hpx hc => ?_⟩
  · refine check_code_quality_congr w₂ w p hpy hpx (fun hsrc₂ => ?_)
    have hsrc : w.pathExists (os_path_join p "src") = true := (hpx _).symm.trans hsrc₂
    have hmem : flake8Cmd (os_path_join p "src") ∈ (check_code_quality w p).invoked := by
      rw [check_code_quality_src w p hsrc]; simp
    exact hc _ hmem
  · refine check_dependencies_congr w₂ w p hpy hpx (fun hpy₂ => ?_) (fun hpy₂ hreq₂ => ?_)
    · have h1 : w.pathExists (os_path_join p "pyproject.toml") = true := (hpx _).symm.trans hpy₂
      have hcmd : pipAuditProjectCmd w₂ p = pipAuditProjectCmd w p := by
        simp [pipAuditProjectCmd, hpy]
      have hmem : pipAuditProjectCmd w p ∈ (check_dependencies w p).invoked := by
        rw [check_dependencies_pyproject w p h1]; simp
      rw [hcmd]; exact hc _ hmem
    · have h1 : w.pathExists (os_path_join p "pyproject.toml") = false := (hpx _).symm.trans hpy₂
      have h2 : w.pathExists (os_path_join p "requirements.txt") = true := (hpx _).symm.trans hreq₂
      have hcmd : pipAuditRequirementsCmd w₂ (os_path_join p "requirements.txt") =
          pipAuditRequirementsCmd w (os_path_join p "requirements.txt") := by
        simp [pipAuditRequirementsCmd, hpy]
      have hmem : pipAuditRequirementsCmd w (os_path_join p "requirements.txt") ∈
          (check_dependencies w p).invoked := by
        rw [check_dependencies_requirements w p h1 h2]; simp
      rw [hcmd]; exact hc _ hmem

/-- `wIssues` with the execution oracle changed only at a command line the
program never invokes. -/
def wIssuesVariant : World :=
  { exec := fun c => if c == "some-other-command" then ⟨1, "other", "other"⟩ else wIssues.exec c,
    pathExists := wIssues.pathExists,
    isDir := wIssues.isDir,
    pythonExe := wIssues.pythonExe }

/-- C8 witness: the concrete run decomposes sequentially, and perturbing the
oracle away from each audit's own commands leaves that audit unchanged. -/
theorem C8_sequential_independent_witness :
    wIssues.isDir "/proj" = true ∧
    main_run wIssues "/proj" =
      { printed := ["--- Starting Audit for: /proj ---",
                    "\n--- Checking for vulnerable dependencies ---",
                    "No pyproject.toml or requirements.txt found.",
                    "\n--- Checking code quality with flake8 ---",
                    "src/x.py:1:1: F401",
                    "\n--- Audit Complete ---"],
        invoked := ["python3 -m pip install pip-audit",
                    "python3 -m pip install flake8",
                    "flake8 /proj/src"],
        exitCode := 0 } ∧
    check_code_quality wIssuesVariant "/proj" = check_code_quality wIssues "/proj" ∧
    check_dependencies wIssuesVariant "/proj" = check_dependencies wIssues "/proj" := by
  have happ := C8_sequential_independent wIssues "/proj" rfl
  have hq : ∀ c, c ∈ (check_code_quality wIssues "/proj").invoked →
      wIssuesVariant.exec c = wIssues.exec c := by
    intro c hcmem
    have hinv : (check_code_quality wIssues "/proj").invoked =
        ["python3 -m pip install flake8", "flake8 /proj/src"] := rfl
    rw [hinv] at hcmem
    simp only [List.mem_cons, List.mem_singleton, List.not_mem_nil, or_false] at hcmem
    rcases hcmem with rfl | rfl
    · decide
    · decide
  have hd : ∀ c, c ∈ (check_dependencies wIssues "/proj").invoked →
      wIssuesVariant.exec c = wIssues.exec c := by
    intro c hcmem
    have hinv : (check_dependencies wIssues "/proj").invoked =
        ["python3 -m pip install pip-audit"] := rfl
    rw [hinv] at hcmem
    simp only [List.mem_cons, List.mem_singleton, List.not_mem_nil, or_false] at hcmem
    rcases hcmem with rfl
    decide
  exact ⟨rfl, happ.1,
    happ.2.1 wIssuesVariant rfl (fun _ => rfl) hq,
    happ.2.2 wIssuesVariant rfl (fun _ => rfl) hd⟩

/-- C9: a failed command's message embeds the command rendered with a space
interspersed between every character (since `' '.join` is applied to a
`str`), followed by the captured stderr; the failed command's captured
stdout never influences the returned string. -/
theorem C9_failure_message_spaced (w : World) (c : String)
    (h : (w.exec c).exitCode ≠ 0) :
    run_command w c =
      "Error running command '" ++ String.mk (c.data.intersperse ' ') ++ "': "
        ++ (w.exec c).stderr ∧
    (∀ w' : World, (w'.exec c).exitCode = (w.exec c).exitCode →
      (w'.exec c).stderr = (w.exec c).stderr →
      run_command w' c = run_command w c) := by
  have hj : joinWithSpaces c = String.mk (c.data.intersperse ' ') :=
    String.ext (joinWithSpaces_data c)
  constructor
  · rw [run_command_failure w c h, hj]
  · intro w' h1 h2
    have h' : (w'.exec c).exitCode ≠ 0 := by rw [h1]; exact h
    rw [run_command_failure w' c h', run_command_failure w c h, h2]

/-- `wFail` with a different captured stdout on every command. -/
def wFailOtherStdout : World :=
  { exec := fun _ => ⟨1, "a completely different stdout", "boom"⟩,
    pathExists := fun _ => false,
    isDir := fun s => s == "/proj",
    pythonExe := "python3" }

/-- C9 witness: the failed command `"ab"` is rendered `"a b"`, and changing
its stdout leaves the returned string unchanged. -/
theorem C9_failure_message_spaced_witness :
    (wFail.exec "ab").exitCode ≠ 0 ∧
    run_command wFail "ab" = "Error running command 'a b': boom" ∧
    (wFailOtherStdout.exec "ab").stdout ≠ (wFail.exec "ab").stdout ∧
    run_command wFailOtherStdout "ab" = run_command wFail "ab" := by
  have happ := C9_failure_message_spaced wFail "ab" (by decide)
  exact ⟨by decide, happ.1, by decide, happ.2 wFailOtherStdout rfl rfl⟩

/-- C10: the audits read only the existence oracle, never the
directory-type oracle — two worlds agreeing on everything but `isDir`
behave identically — and existence alone selects project-context mode,
requirements mode, and the flake8 invocation. -/
theorem C10_probes_ignore_file_type (w w' : World) (p : String)
    (hex : w.exec = w'.exec) (hpx : w.pathExists = w'.pathExists)
    (hpy : w.pythonExe = w'.pythonExe) :
    check_dependencies w p = check_dependencies w' p ∧
    check_code_quality w p = check_code_quality w' p ∧
    (w.pathExists (os_path_join p "pyproject.toml") = true →
      pipAuditProjectCmd w p ∈ (check_dependencies w p).invoked) ∧
    (w.pathExists (os_path_join p "pyproject.toml") = false →
     w.pathExists (os_path_join p "requirements.txt") = true →
      pipAuditRequirementsCmd w (os_path_join p "requirements.txt") ∈
        (check_dependencies w p).invoked) ∧
    (w.pathExists (os_path_join p "src") = true →
      flake8Cmd (os_path_join p "src") ∈ (check_code_quality w p).invoked) := by
  refine ⟨check_dependencies_congr w w' p hpy (fun s => by rw [hpx])
            (fun _ => by rw [hex]) (fun _ _ => by rw [hex]),
          check_code_quality_congr w w' p hpy (fun s => by rw [hpx])
            (fun _ => by rw [hex]),
          fun h1 => ?_, fun h1 h2 => ?_, fun h => ?_⟩
  · rw [check_dependencies_pyproject w p h1]; simp
  · rw [check_dependencies_requirements w p h1 h2]; simp
  · rw [check_code_quality_src w p h]; simp

/-- A world in which the entry named `pyproject.toml` is itself a
directory. -/
def wDirNamedPyproject : World :=
  { exec := okAll,
    pathExists := fun s => s == "/proj/pyproject.toml",
    isDir := fun s => s == "/proj" || s == "/proj/pyproject.toml",
    pythonExe := "python3" }

/-- The same world with the directory-type oracle answering false
everywhere. -/
def wDirNamedPyprojectNoDirs : World :=
  { exec := okAll,
    pathExists := fun s => s == "/proj/pyproject.toml",
    isDir := fun _ => false,
    pythonExe := "python3" }

/-- C10 witness: a directory named `pyproject.toml` still selects
project-context mode, and a non-directory `src` entry still gets flake8
invoked on it. -/
theorem C10_probes_ignore_file_type_witness :
    wDirNamedPyproject.isDir "/proj/pyproject.toml" = true ∧
    wDirNamedPyprojectNoDirs.isDir "/proj/pyproject.toml" = false ∧
    wDirNamedPyproject.pathExists (os_path_join "/proj" "pyproject.toml") = true ∧
    check_dependencies wDirNamedPyproject "/proj" =
      check_dependencies wDirNamedPyprojectNoDirs "/proj" ∧
    "cd /proj && python3 -m pip-audit" ∈
      (check_dependencies wDirNamedPyproject "/proj").invoked ∧
    wIssues.isDir "/proj/src" = false ∧
    wIssues.pathExists (os_path_join "/proj" "src") = true ∧
    "flake8 /proj/src" ∈ (check_code_quality wIssues "/proj").invoked := by
  have happ := C10_probes_ignore_file_type wDirNamedPyproject wDirNamedPyprojectNoDirs
    "/proj" rfl rfl rfl
  have happ2 := C10_probes_ignore_file_type wIssues wIssues "/proj" rfl rfl rfl
  exact ⟨rfl, rfl, rfl, happ.1, happ.2.2.1 rfl, by decide, rfl, happ2.2.2.2.2 rfl⟩

end AuditPythonProject
